import Mathlib

/-!
# Verification of the POS transaction and cash-session engine

A shallow embedding of the core of `pos_app.py`: cart lines and pricing,
the cash-session state machine (`open_cash`, `close_cash`, `finish_sale`),
the end-of-session aggregation (`_build_cash_summary`), the CSV import
pipeline (`_import_products` and the mapping-dialog confirmation), the
receipt formatter (`_print_ticket_for_sale`) and the receipt dispatcher
(`_print_text`).

Python floats are idealised as exact rationals (`ℚ`), Python ints as `ℤ`.
The wall clock (`datetime.now()`) is threaded through as an explicit
`DateTime` value wherever the source calls it. Python `float(...)` string
parsing is modelled by its result: either a parsed rational or a parse
failure, i.e. an `Option ℚ` (and an abstract parse function for CSV price
cells). GUI dialogs are modelled by the data they deliver; `messagebox`
notifications by explicit result values.
-/

/-- Embeds the `Product` dataclass of `pos_app.py`. -/
structure Product where
  reference : String
  description : String
  barcode : String
  price : ℚ
deriving DecidableEq

/-- Embeds the `SaleLine` dataclass: a product, a quantity, a unit price and
a discount percentage. -/
structure SaleLine where
  product : Product
  qty : ℤ
  price : ℚ
  discount : ℚ
deriving DecidableEq

/-- Embeds `SaleLine.total`: `qty * price * (1 - discount / 100)`. -/
def SaleLine.total (l : SaleLine) : ℚ :=
  (l.qty : ℚ) * l.price * (1 - l.discount / 100)

/-- The mutable fields of `POSApp` that the transaction engine touches:
catalog, current cart, session-sales list, cash-session flag, printer name,
ticket header and footer, default tax rate. -/
structure POSState where
  products : List Product
  currentSale : List SaleLine
  sessionSales : List (List SaleLine × ℚ)
  cashOpen : Bool
  printerName : Option String
  ticketHeader : String
  ticketFooter : String
  defaultTaxRate : ℚ
deriving DecidableEq

/-- Embeds `POSApp._parse_float_or_default`: the parsed float when the input
parses, the default otherwise.  The Python `float(...)` call is modelled by
its result, an `Option ℚ`. -/
def parseFloatOrDefault (value : Option ℚ) (default : ℚ) : ℚ :=
  value.getD default

/-- A calendar timestamp, standing for a `datetime.now()` reading. -/
structure DateTime where
  year : ℕ
  month : ℕ
  day : ℕ
  hour : ℕ
  minute : ℕ
  second : ℕ
deriving DecidableEq

/-- Two-digit zero padding, as in `strftime` numeric fields. -/
def pad2 (n : ℕ) : String :=
  if n < 10 then "0" ++ toString n else toString n

/-- Embeds `strftime` with format `%d/%m/%Y %H:%M` (used by both receipt
builders).  Note the seconds field is not rendered. -/
def strftimeDayMinute (t : DateTime) : String :=
  pad2 t.day ++ "/" ++ pad2 t.month ++ "/" ++ toString t.year ++ " " ++
    pad2 t.hour ++ ":" ++ pad2 t.minute

/-- Rounds a rational to a whole number of cents (the 2-decimal rounding of
Python `format`, idealised as round-half-up over exact rationals). -/
def roundCents (q : ℚ) : ℤ :=
  Rat.floor (q * 100 + 1 / 2)

/-- Inserts a thousands separator every three digits, over the reversed
digit list of the integer part. -/
def commasRev : List Char → List Char
  | a :: b :: c :: d :: rest => a :: b :: c :: ',' :: commasRev (d :: rest)
  | l => l

/-- Renders a signed cent count with a grouped integer part and two
decimals, as Python `f-string` format `,.2f`. -/
def fmtGrouped (cents : ℤ) : String :=
  let sign := if cents < 0 then "-" else ""
  let m := cents.natAbs
  sign ++ String.mk (commasRev (toString (m / 100)).data.reverse).reverse ++
    "." ++ pad2 (m % 100)

/-- Embeds Python `f-string` format `,.2f` applied to a monetary value. -/
def fmtMoney (q : ℚ) : String :=
  fmtGrouped (roundCents q)

/-- Embeds Python `f-string` format `.2f` (two decimals, no grouping), used
for discount and tax-rate percentages. -/
def fmtFixed2 (q : ℚ) : String :=
  let c := roundCents q
  (if c < 0 then "-" else "") ++ toString (c.natAbs / 100) ++ "." ++
    pad2 (c.natAbs % 100)

/-- The subtotal of a list of sale lines: the sum of the line totals. -/
def saleSubtotal (lines : List SaleLine) : ℚ :=
  (lines.map SaleLine.total).sum

/-- Embeds the `aggregated` dict update
`aggregated[ref] = aggregated.get(ref, 0) + qty` on an insertion-ordered
association list. -/
def addQty (agg : List (String × ℤ)) (ref : String) (q : ℤ) : List (String × ℤ) :=
  match agg with
  | [] => [(ref, q)]
  | (r, n) :: rest =>
      if r = ref then (r, n + q) :: rest else (r, n) :: addQty rest ref q

/-- The accumulator of the `_build_cash_summary` loop: running grand total,
running tax total, and the per-product aggregated quantities. -/
structure SummaryAcc where
  total : ℚ
  taxTotal : ℚ
  aggregated : List (String × ℤ)
deriving DecidableEq

/-- The inner loop of `_build_cash_summary` over one sale's lines: updates
the aggregated quantities and accumulates the sale subtotal (which starts
at `0` for each sale). -/
def saleLineFold (agg : List (String × ℤ)) (lines : List SaleLine) :
    List (String × ℤ) × ℚ :=
  lines.foldl
    (fun p line => (addQty p.1 line.product.reference line.qty, p.2 + line.total))
    (agg, 0)

/-- The numeric part of `_build_cash_summary`: folds over the session sales
accumulating `total`, `tax_total` and `aggregated` exactly as the Python
loop does (`total += subtotal + subtotal * rate / 100`,
`tax_total += subtotal * rate / 100`). -/
def summaryFold (sales : List (List SaleLine × ℚ)) : SummaryAcc :=
  sales.foldl
    (fun acc sale =>
      let inner := saleLineFold acc.aggregated sale.1
      { total := acc.total + inner.2 + inner.2 * sale.2 / 100,
        taxTotal := acc.taxTotal + inner.2 * sale.2 / 100,
        aggregated := inner.1 })
    ⟨0, 0, []⟩

/-- Embeds `POSApp._build_cash_summary`: the close-summary receipt text,
with `base_total` computed as `total - tax_total`. -/
def buildCashSummary (now : DateTime) (sales : List (List SaleLine × ℚ)) : String :=
  let d := summaryFold sales
  let baseTotal := d.total - d.taxTotal
  let ls := ["*** Cierre de caja ***", strftimeDayMinute now, ""] ++
    d.aggregated.map (fun p => p.1 ++ ": " ++ toString p.2 ++ " uds") ++
    ["",
     "Base imponible: $" ++ fmtMoney baseTotal,
     "IVA acumulado: $" ++ fmtMoney d.taxTotal,
     "Total caja: $" ++ fmtMoney d.total]
  String.intercalate ("\n") ls

/-- The failure outcomes of `POSApp.finish_sale`. -/
inductive FinishError
  | cashSessionNotOpen
  | emptyCart
deriving DecidableEq

/-- Embeds `POSApp.finish_sale`.  `taxInput` is the (possibly unparseable)
content of the tax-rate field; the parsed rate overwrites
`default_tax_rate`.  On failure the state is returned unchanged together
with the reported error. -/
def finishSale (s : POSState) (taxInput : Option ℚ) :
    POSState × Option FinishError :=
  if s.cashOpen = false then (s, some .cashSessionNotOpen)
  else if s.currentSale.isEmpty then (s, some .emptyCart)
  else
    let taxRate := parseFloatOrDefault taxInput s.defaultTaxRate
    let saleCopy :=
      s.currentSale.map (fun l => SaleLine.mk l.product l.qty l.price l.discount)
    ({ s with
        defaultTaxRate := taxRate,
        sessionSales := s.sessionSales ++ [(saleCopy, taxRate)],
        currentSale := [] }, none)

/-- Embeds `POSApp.open_cash`.  The boolean reports whether the call was a
no-op notified as "already open". -/
def openCash (s : POSState) : POSState × Bool :=
  if s.cashOpen then (s, true)
  else ({ s with cashOpen := true, sessionSales := [] }, false)

/-- Embeds `POSApp.close_cash`.  Returns `none` when the call was a no-op
notified as "already closed"; otherwise the close-summary text built from
the accumulated sales, with the state closed and the sales cleared. -/
def closeCash (s : POSState) (now : DateTime) : POSState × Option String :=
  if s.cashOpen = false then (s, none)
  else
    (({ s with cashOpen := false, sessionSales := [] }),
      some (buildCashSummary now s.sessionSales))

/-- Embeds `POSApp._print_ticket_for_sale`: renders one finalized sale into
receipt text, given the header, footer, the sale lines, the tax rate, and
the wall-clock reading the source takes via `datetime.now()`. -/
def printTicketForSale (now : DateTime) (header footer : String)
    (sale : List SaleLine) (taxRate : ℚ) : String :=
  let init : List String := [header, strftimeDayMinute now, ""]
  let folded := sale.foldl
    (fun (acc : ℚ × List String) line =>
      let discountText :=
        if line.discount = 0 then "" else " (-" ++ fmtFixed2 line.discount ++ "%)"
      (acc.1 + line.total,
        acc.2 ++
          [line.product.reference ++ " x" ++ toString line.qty ++ " @ $" ++
             fmtMoney line.price ++ discountText,
           "  " ++ line.product.description]))
    (0, init)
  let subtotal := folded.1
  let taxAmount := subtotal * taxRate / 100
  let total := subtotal + taxAmount
  let body := folded.2 ++
    ["",
     "Base: $" ++ fmtMoney subtotal,
     "IVA " ++ fmtFixed2 taxRate ++ "%: $" ++ fmtMoney taxAmount,
     "TOTAL: $" ++ fmtMoney total]
  let body2 := if footer = "" then body else body ++ ["", footer]
  String.intercalate ("\n") body2

/-- The observable effects of one `POSApp._print_text` call, in order. -/
inductive PrintEvent
  | persistAttempt (text : String)
  | persisted (text : String)
  | forwardAttempt (printerName : String) (text : String)
deriving DecidableEq

/-- The outcome of the `lpr` subprocess run inside `_print_text`. -/
inductive DeviceOutcome
  | ok
  | okWithStderr (msg : String)
  | commandNotFound
  | rejected (msg : String)
deriving DecidableEq

/-- The notification `_print_text` ends with. -/
inductive PrintStatus
  | persistenceFailure
  | persistedUnprinted
  | printedOk
  | printedWithDeviceWarning
  | deviceCommandMissing
  | deviceRejected
deriving DecidableEq

/-- Embeds `POSApp._print_text`.  `persistOk` is whether the write of the
ticket file succeeds (`OSError` otherwise); `device` is the outcome of the
`lpr` run when a printer is configured.  Returns the ordered event trace
and the final notification. -/
def printText (persistOk : Bool) (printerName : Option String)
    (device : DeviceOutcome) (text : String) : List PrintEvent × PrintStatus :=
  if persistOk = false then ([.persistAttempt text], .persistenceFailure)
  else
    match printerName with
    | none => ([.persistAttempt text, .persisted text], .persistedUnprinted)
    | some name =>
      let events : List PrintEvent :=
        [.persistAttempt text, .persisted text, .forwardAttempt name text]
      match device with
      | .ok => (events, .printedOk)
      | .okWithStderr _ => (events, .printedWithDeviceWarning)
      | .commandNotFound => (events, .deviceCommandMissing)
      | .rejected _ => (events, .deviceRejected)

/-- The column index of each required CSV field, as computed by
`_import_products` from the header row (`headers.index(col)`). -/
structure FieldIndices where
  reference : ℕ
  description : ℕ
  barcode : ℕ
  price : ℕ
deriving DecidableEq

/-- Embeds Python `str.replace(",", ".")`, which substitutes every comma
with a dot. -/
def commaToDot (s : String) : String :=
  String.map (fun c => if c = ',' then '.' else c) s

/-- The body of the `_import_products` row loop: extracts the four mapped
cells (`IndexError` when out of range), trims the text fields, substitutes
commas in the price cell and parses it (`ValueError` on failure); `none`
means the row raised and is skipped.  `floatParse` models the Python
`float(...)` string parse. -/
def importRow (floatParse : String → Option ℚ) (idx : FieldIndices)
    (row : List String) : Option Product :=
  match row.get? idx.reference, row.get? idx.description,
        row.get? idx.barcode, row.get? idx.price with
  | some r, some d, some b, some p =>
    match floatParse (commaToDot p) with
    | some price => some ⟨r.trim, d.trim, b.trim, price⟩
    | none => none
  | _, _, _, _ => none

/-- Embeds the `_import_products` loop over the data rows: each good row is
appended to the catalog and counted; a failing row is skipped and the loop
continues.  Returns the grown catalog and the imported count. -/
def importProducts (floatParse : String → Option ℚ) (idx : FieldIndices)
    (rows : List (List String)) (catalog : List Product) :
    List Product × ℕ :=
  rows.foldl
    (fun acc row =>
      match importRow floatParse idx row with
      | none => acc
      | some p => (acc.1 ++ [p], acc.2 + 1))
    (catalog, 0)

/-- The column choice of the mapping dialog: one header name per required
field. -/
structure MappingSelection where
  reference : String
  description : String
  barcode : String
  price : String
deriving DecidableEq

/-- The four chosen column names, in field order. -/
def MappingSelection.values (m : MappingSelection) : List String :=
  [m.reference, m.description, m.barcode, m.price]

/-- Embeds the duplicate check of the dialog's `confirm`:
`len(set(selected.values())) < len(selected.values())`. -/
def mappingConflict (selected : List String) : Bool :=
  decide (selected.dedup.length < selected.length)

/-- Embeds `header_indices` of `_import_products`: each field's chosen
column name resolved to its first position in the header row. -/
def headerIndices (headers : List String) (m : MappingSelection) : FieldIndices :=
  ⟨headers.indexOf m.reference, headers.indexOf m.description,
   headers.indexOf m.barcode, headers.indexOf m.price⟩

/-- Embeds the dialog's `confirm` followed by `_import_products`: on a
mapping conflict the import is never invoked (flag `true`, catalog
unchanged, zero imported); otherwise the rows are imported. -/
def confirmImport (floatParse : String → Option ℚ) (headers : List String)
    (m : MappingSelection) (rows : List (List String))
    (catalog : List Product) : (List Product × ℕ) × Bool :=
  if mappingConflict m.values then ((catalog, 0), true)
  else (importProducts floatParse (headerIndices headers m) rows catalog, false)

/-- The failure outcomes of the cart mutation handlers. -/
inductive SaleOpError
  | noSelection
  | validationError
  | indexError
deriving DecidableEq

/-- Embeds `POSApp.add_product_to_sale`: requires a product selection, a
quantity that parses as a positive integer, then appends a line whose price
and discount fall back to the product price and `0` when their fields do
not parse.  On failure the state is unchanged. -/
def addProductToSale (s : POSState) (selection : Option ℕ)
    (qtyInput : Option ℤ) (priceInput discountInput : Option ℚ) :
    POSState × Option SaleOpError :=
  match selection with
  | none => (s, some .noSelection)
  | some idx =>
    match qtyInput with
    | none => (s, some .validationError)
    | some qty =>
      if qty ≤ 0 then (s, some .validationError)
      else
        match s.products.get? idx with
        | none => (s, some .indexError)
        | some product =>
          let price := parseFloatOrDefault priceInput product.price
          let discount := parseFloatOrDefault discountInput 0
          ({ s with currentSale :=
              s.currentSale ++ [⟨product, qty, price, discount⟩] }, none)

/-- Embeds `POSApp.edit_sale_line`'s `save_line`: requires a quantity that
parses as a positive integer, then replaces the line at `idx`, price and
discount falling back to the line's previous values when their fields do
not parse.  On failure the state is unchanged. -/
def editSaleLine (s : POSState) (idx : ℕ) (qtyInput : Option ℤ)
    (priceInput discountInput : Option ℚ) : POSState × Option SaleOpError :=
  match s.currentSale.get? idx with
  | none => (s, some .indexError)
  | some line =>
    match qtyInput with
    | none => (s, some .validationError)
    | some qty =>
      if qty ≤ 0 then (s, some .validationError)
      else
        let price := parseFloatOrDefault priceInput line.price
        let discount := parseFloatOrDefault discountInput line.discount
        ({ s with currentSale :=
            s.currentSale.set idx ⟨line.product, qty, price, discount⟩ }, none)

/-! ## Fixtures and helper lemmas -/

/-- A sample catalog product used by concrete witnesses. -/
def sampleProduct : Product := ⟨"A1", "Widget", "111", 10⟩

/-- A sample open-session state with one line in the cart. -/
def sampleOpenState : POSState :=
  ⟨[sampleProduct], [⟨sampleProduct, 3, 10, 10⟩], [], true, none, "H", "F", 21⟩

/-- A sample closed-session state with an empty cart. -/
def sampleClosedState : POSState :=
  ⟨[sampleProduct], [], [], false, none, "H", "F", 21⟩

theorem saleLine_eta (l : SaleLine) :
    SaleLine.mk l.product l.qty l.price l.discount = l := rfl

theorem map_saleLine_copy (xs : List SaleLine) :
    xs.map (fun l => SaleLine.mk l.product l.qty l.price l.discount) = xs := by
  induction xs with
  | nil => rfl
  | cons a as ih => simp [ih]

/-! ## Claims -/

/-- C3: for every `SaleLine` the line total equals
`quantity * unitPrice * (1 - discountPercent / 100)`, and for valid inputs
(`quantity ≥ 1`, `unitPrice ≥ 0`, `discountPercent ∈ [0, 100]`) this value
is nonnegative. -/
theorem saleLine_total_spec (l : SaleLine) :
    l.total = (l.qty : ℚ) * l.price * (1 - l.discount / 100) ∧
    (1 ≤ l.qty → 0 ≤ l.price → 0 ≤ l.discount → l.discount ≤ 100 →
      0 ≤ l.total) := by
  refine ⟨rfl, fun hq hp _hd0 hd100 => ?_⟩
  have hq' : (0 : ℚ) ≤ (l.qty : ℚ) := by
    have : (0 : ℤ) ≤ l.qty := le_trans zero_le_one hq
    exact_mod_cast this
  have hdle : l.discount / 100 ≤ 1 := (div_le_one (by norm_num)).mpr hd100
  have hfac : (0 : ℚ) ≤ 1 - l.discount / 100 := by linarith
  exact mul_nonneg (mul_nonneg hq' hp) hfac

/-- Witness for C3 at the spec scenario line (qty 3, price 10,
discount 10): the total is the formula value and is nonnegative. -/
theorem saleLine_total_spec_witness :
    (0 : ℚ) ≤ SaleLine.total ⟨sampleProduct, 3, 10, 10⟩ :=
  (saleLine_total_spec ⟨sampleProduct, 3, 10, 10⟩).2 (by decide) (by norm_num)
    (by norm_num) (by norm_num)

/-- C1: `finish_sale` fails with `CashSessionNotOpen` when the session is
not open and with `EmptyCart` when the cart is empty, in both cases leaving
the whole state unchanged; on success it reports no error, empties the
cart, and appends the (deep-copied) cart lines with the parsed tax rate to
the session-sales list. -/
theorem finishSale_spec (s : POSState) (taxInput : Option ℚ) :
    (s.cashOpen = false →
      finishSale s taxInput = (s, some .cashSessionNotOpen)) ∧
    (s.cashOpen = true → s.currentSale = [] →
      finishSale s taxInput = (s, some .emptyCart)) ∧
    (s.cashOpen = true → s.currentSale ≠ [] →
      (finishSale s taxInput).2 = none ∧
      (finishSale s taxInput).1.currentSale = [] ∧
      (finishSale s taxInput).1.sessionSales =
        s.sessionSales ++
          [(s.currentSale, parseFloatOrDefault taxInput s.defaultTaxRate)]) := by
  refine ⟨fun h => ?_, fun h he => ?_, fun h hne => ?_⟩
  · simp [finishSale, h]
  · simp [finishSale, h, he]
  · have he : s.currentSale.isEmpty = false := by
      cases hcs : s.currentSale with
      | nil => exact absurd hcs hne
      | cons a as => rfl
    simp [finishSale, h, he, map_saleLine_copy]

/-- Witness for C1: the three branches at concrete states — closed session,
open session with empty cart, open session with the sample cart. -/
theorem finishSale_spec_witness :
    finishSale sampleClosedState (some 21) =
      (sampleClosedState, some .cashSessionNotOpen) ∧
    finishSale { sampleOpenState with currentSale := [] } (some 21) =
      ({ sampleOpenState with currentSale := [] }, some .emptyCart) ∧
    (finishSale sampleOpenState (some 21)).2 = none ∧
    (finishSale sampleOpenState (some 21)).1.currentSale = [] ∧
    (finishSale sampleOpenState (some 21)).1.sessionSales =
      [([⟨sampleProduct, 3, 10, 10⟩], 21)] := by
  refine ⟨(finishSale_spec sampleClosedState (some 21)).1 rfl,
    (finishSale_spec { sampleOpenState with currentSale := [] } (some 21)).2.1
      rfl rfl, ?_⟩
  have h := (finishSale_spec sampleOpenState (some 21)).2.2 rfl (by decide)
  exact ⟨h.1, h.2.1, by rw [h.2.2]; rfl⟩

/-- C10: every successful `finish_sale` additionally overwrites the stored
default tax rate with the tax rate used for the sale. -/
theorem finishSale_defaultTaxRate_frame (s : POSState) (r : ℚ)
    (hopen : s.cashOpen = true) (hne : s.currentSale ≠ []) :
    (finishSale s (some r)).2 = none ∧
    (finishSale s (some r)).1.defaultTaxRate = r := by
  have he : s.currentSale.isEmpty = false := by
    cases hcs : s.currentSale with
    | nil => exact absurd hcs hne
    | cons a as => rfl
  simp [finishSale, hopen, he, parseFloatOrDefault]

/-- Witness for C10: finalizing the sample open state at rate 10 overwrites
the default rate 21 with 10. -/
theorem finishSale_defaultTaxRate_frame_witness :
    (finishSale sampleOpenState (some 10)).2 = none ∧
    (finishSale sampleOpenState (some 10)).1.defaultTaxRate = 10 :=
  finishSale_defaultTaxRate_frame sampleOpenState 10 rfl (by decide)

/-- C4: the cash-session two-state machine — `open_cash` from Closed clears
the session sales and opens; `open_cash` while Open is a reported no-op;
`close_cash` from Open computes the summary from the accumulated sales,
clears them and closes; `close_cash` while Closed is a reported no-op. -/
theorem cashSession_machine (s : POSState) (now : DateTime) :
    (s.cashOpen = false →
      openCash s = ({ s with cashOpen := true, sessionSales := [] }, false)) ∧
    (s.cashOpen = true → openCash s = (s, true)) ∧
    (s.cashOpen = true →
      closeCash s now = ({ s with cashOpen := false, sessionSales := [] },
        some (buildCashSummary now s.sessionSales))) ∧
    (s.cashOpen = false → closeCash s now = (s, none)) := by
  refine ⟨fun h => ?_, fun h => ?_, fun h => ?_, fun h => ?_⟩
  · simp [openCash, h]
  · simp [openCash, h]
  · simp [closeCash, h]
  · simp [closeCash, h]

/-- Witness for C4: the four transitions at concrete closed and open
states. -/
theorem cashSession_machine_witness :
    openCash sampleClosedState =
      ({ sampleClosedState with cashOpen := true, sessionSales := [] }, false) ∧
    openCash sampleOpenState = (sampleOpenState, true) ∧
    closeCash sampleOpenState ⟨2024, 1, 5, 10, 30, 0⟩ =
      ({ sampleOpenState with cashOpen := false, sessionSales := [] },
        some (buildCashSummary ⟨2024, 1, 5, 10, 30, 0⟩
          sampleOpenState.sessionSales)) ∧
    closeCash sampleClosedState ⟨2024, 1, 5, 10, 30, 0⟩ =
      (sampleClosedState, none) :=
  ⟨(cashSession_machine sampleClosedState ⟨2024, 1, 5, 10, 30, 0⟩).1 rfl,
   (cashSession_machine sampleOpenState ⟨2024, 1, 5, 10, 30, 0⟩).2.1 rfl,
   (cashSession_machine sampleOpenState ⟨2024, 1, 5, 10, 30, 0⟩).2.2.1 rfl,
   (cashSession_machine sampleClosedState ⟨2024, 1, 5, 10, 30, 0⟩).2.2.2 rfl⟩

theorem saleLineFold_generalized (lines : List SaleLine) :
    ∀ (agg : List (String × ℤ)) (c : ℚ),
      (lines.foldl
        (fun p line =>
          (addQty p.1 line.product.reference line.qty, p.2 + line.total))
        (agg, c)).2 = c + saleSubtotal lines := by
  induction lines with
  | nil => intro agg c; simp [saleSubtotal]
  | cons l ls ih =>
    intro agg c
    simp only [List.foldl_cons]
    rw [ih]
    simp [saleSubtotal]
    ring

theorem saleLineFold_snd (agg : List (String × ℤ)) (lines : List SaleLine) :
    (saleLineFold agg lines).2 = saleSubtotal lines := by
  have h := saleLineFold_generalized lines agg 0
  simpa [saleLineFold] using h

theorem summaryFold_generalized (sales : List (List SaleLine × ℚ)) :
    ∀ acc : SummaryAcc,
      (sales.foldl
        (fun acc sale =>
          let inner := saleLineFold acc.aggregated sale.1
          { total := acc.total + inner.2 + inner.2 * sale.2 / 100,
            taxTotal := acc.taxTotal + inner.2 * sale.2 / 100,
            aggregated := inner.1 : SummaryAcc })
        acc).total =
        acc.total + (sales.map
          (fun sale => saleSubtotal sale.1 + saleSubtotal sale.1 * sale.2 / 100)).sum ∧
      (sales.foldl
        (fun acc sale =>
          let inner := saleLineFold acc.aggregated sale.1
          { total := acc.total + inner.2 + inner.2 * sale.2 / 100,
            taxTotal := acc.taxTotal + inner.2 * sale.2 / 100,
            aggregated := inner.1 : SummaryAcc })
        acc).taxTotal =
        acc.taxTotal + (sales.map
          (fun sale => saleSubtotal sale.1 * sale.2 / 100)).sum := by
  induction sales with
  | nil => intro acc; simp
  | cons x xs ih =>
    intro acc
    simp only [List.foldl_cons, List.map_cons, List.sum_cons]
    constructor
    · rw [(ih _).1]
      simp [saleLineFold_snd]
      ring
    · rw [(ih _).2]
      simp [saleLineFold_snd]
      ring


theorem sum_map_sub_helper (sales : List (List SaleLine × ℚ)) :
    (sales.map
      (fun sale => saleSubtotal sale.1 + saleSubtotal sale.1 * sale.2 / 100)).sum -
      (sales.map (fun sale => saleSubtotal sale.1 * sale.2 / 100)).sum =
    (sales.map (fun sale => saleSubtotal sale.1)).sum := by
  induction sales with
  | nil => simp
  | cons x xs ih =>
    simp only [List.map_cons, List.sum_cons]
    rw [← ih]
    ring

/-- C2: for every session-sales composition, possibly with differing tax
rates, the close summary's figures satisfy
`grandTotal = baseTotal + taxTotal`,
`taxTotal = Σ saleSubtotal * taxRate / 100`, and
`baseTotal = Σ saleSubtotal` (with `baseTotal` the code's
`total - tax_total`). -/
theorem sessionAggregation_totals (sales : List (List SaleLine × ℚ)) :
    (summaryFold sales).total =
      ((summaryFold sales).total - (summaryFold sales).taxTotal) +
        (summaryFold sales).taxTotal ∧
    (summaryFold sales).taxTotal =
      (sales.map (fun sale => saleSubtotal sale.1 * sale.2 / 100)).sum ∧
    (summaryFold sales).total - (summaryFold sales).taxTotal =
      (sales.map (fun sale => saleSubtotal sale.1)).sum := by
  have h := summaryFold_generalized sales ⟨0, 0, []⟩
  have htot : (summaryFold sales).total =
      (sales.map
        (fun sale => saleSubtotal sale.1 + saleSubtotal sale.1 * sale.2 / 100)).sum := by
    have := h.1
    simpa [summaryFold] using this
  have htax : (summaryFold sales).taxTotal =
      (sales.map (fun sale => saleSubtotal sale.1 * sale.2 / 100)).sum := by
    have := h.2
    simpa [summaryFold] using this
  refine ⟨by ring, htax, ?_⟩
  rw [htot, htax]
  exact sum_map_sub_helper sales

theorem importProducts_generalized (fp : String → Option ℚ) (idx : FieldIndices)
    (rows : List (List String)) :
    ∀ (cat : List Product) (n : ℕ),
      rows.foldl
        (fun acc row =>
          match importRow fp idx row with
          | none => acc
          | some p => (acc.1 ++ [p], acc.2 + 1))
        (cat, n) =
      (cat ++ rows.filterMap (importRow fp idx),
        n + rows.countP (fun r => (importRow fp idx r).isSome)) := by
  induction rows with
  | nil => intro cat n; simp
  | cons r rs ih =>
    intro cat n
    cases h : importRow fp idx r with
    | none =>
      simp only [List.foldl_cons, h]
      rw [ih]
      simp [List.filterMap_cons, h, List.countP_cons]
    | some p =>
      simp only [List.foldl_cons, h]
      rw [ih]
      simp [List.filterMap_cons, h, List.countP_cons, List.append_assoc]
      omega

theorem importRow_count_partition (fp : String → Option ℚ) (idx : FieldIndices)
    (rows : List (List String)) :
    rows.countP (fun r => (importRow fp idx r).isSome) +
      (rows.filter (fun r => (importRow fp idx r).isNone)).length = rows.length := by
  induction rows with
  | nil => simp
  | cons r rs ih =>
    cases h : importRow fp idx r <;>
      simp [List.countP_cons, List.filter_cons, h] <;> omega

theorem length_filterMap_importRow (fp : String → Option ℚ) (idx : FieldIndices)
    (rows : List (List String)) :
    (rows.filterMap (importRow fp idx)).length =
      rows.countP (fun r => (importRow fp idx r).isSome) := by
  induction rows with
  | nil => rfl
  | cons r rs ih =>
    cases h : importRow fp idx r <;>
      simp [List.filterMap_cons, h, List.countP_cons, ih]

/-- C5: a data row whose cell extraction or price parse fails is skipped
without aborting the batch or counting toward the imported total; importing
`N` rows of which `K` are malformed appends exactly `N - K` products to the
catalog, and products appended from earlier rows remain whatever later rows
do. -/
theorem importRows_spec (fp : String → Option ℚ) (idx : FieldIndices)
    (rows : List (List String)) (catalog : List Product) :
    (importProducts fp idx rows catalog).2 =
      rows.length -
        (rows.filter (fun r => (importRow fp idx r).isNone)).length ∧
    (importProducts fp idx rows catalog).1 =
      catalog ++ rows.filterMap (importRow fp idx) ∧
    (importProducts fp idx rows catalog).1.length =
      catalog.length + (importProducts fp idx rows catalog).2 ∧
    ∀ rows2, (importProducts fp idx (rows ++ rows2) catalog).1 =
      (importProducts fp idx rows catalog).1 ++
        rows2.filterMap (importRow fp idx) := by
  have hip : importProducts fp idx rows catalog =
      (catalog ++ rows.filterMap (importRow fp idx),
        0 + rows.countP (fun r => (importRow fp idx r).isSome)) :=
    importProducts_generalized fp idx rows catalog 0
  have hpart := importRow_count_partition fp idx rows
  refine ⟨?_, ?_, ?_, ?_⟩
  · rw [hip]
    simp only []
    omega
  · rw [hip]
  · rw [hip]
    simp [length_filterMap_importRow]
  · intro rows2
    have hip2 : importProducts fp idx (rows ++ rows2) catalog =
        (catalog ++ (rows ++ rows2).filterMap (importRow fp idx),
          0 + (rows ++ rows2).countP (fun r => (importRow fp idx r).isSome)) :=
      importProducts_generalized fp idx (rows ++ rows2) catalog 0
    rw [hip, hip2]
    simp [List.filterMap_append, List.append_assoc]

/-- C6: an import mapping in which two required fields resolve to the same
source column index fails the dialog's duplicate check (`MappingConflict`)
before any row is processed: the import loop never runs, the catalog is
unchanged and zero products are counted. -/
theorem mappingConflict_spec (fp : String → Option ℚ) (headers : List String)
    (m : MappingSelection) (rows : List (List String))
    (catalog : List Product) (i j : Fin m.values.length) (hij : i ≠ j)
    (hi : m.values.get i ∈ headers) (hj : m.values.get j ∈ headers)
    (heq : headers.indexOf (m.values.get i) =
      headers.indexOf (m.values.get j)) :
    confirmImport fp headers m rows catalog = ((catalog, 0), true) := by
  have heqs : m.values.get i = m.values.get j :=
    (List.indexOf_inj hi hj).mp heq
  have hnodup : ¬ m.values.Nodup := fun h => hij (h.get_inj_iff.mp heqs)
  have hne : m.values.dedup ≠ m.values := fun h =>
    hnodup (List.dedup_eq_self.mp h)
  have hle : m.values.dedup.length ≤ m.values.length :=
    (List.dedup_sublist m.values).length_le
  have hlt : m.values.dedup.length < m.values.length :=
    lt_of_le_of_ne hle fun h =>
      hne ((List.dedup_sublist m.values).eq_of_length h)
  simp [confirmImport, mappingConflict, hlt]

/-- Witness for C6: "barcode" and "price" both mapped to column "c" of
headers `["a", "b", "c"]` conflict and leave the empty catalog empty. -/
theorem mappingConflict_spec_witness :
    confirmImport (fun _ => none) ["a", "b", "c"] ⟨"a", "b", "c", "c"⟩
      [["1", "2", "3"]] [] = (([], 0), true) :=
  mappingConflict_spec (fun _ => none) ["a", "b", "c"] ⟨"a", "b", "c", "c"⟩
    [["1", "2", "3"]] [] ⟨2, by decide⟩ ⟨3, by decide⟩ (by decide)
    (by decide) (by decide) (by decide)

/-- C7: every `_print_text` call attempts the receipt-store write first
(the trace always starts with the persist attempt, before any device
forward); a failed write is reported as a persistence failure; with no
configured printer the result is persisted-but-unprinted, not an error; a
missing forwarding command or a device rejection yields a non-fatal
notification while the receipt stays persisted. -/
theorem dispatch_spec (persistOk : Bool) (printer : Option String)
    (device : DeviceOutcome) (text : String) :
    (printText persistOk printer device text).1.head? =
      some (.persistAttempt text) ∧
    (persistOk = false →
      printText persistOk printer device text =
        ([.persistAttempt text], .persistenceFailure)) ∧
    (persistOk = true → printer = none →
      printText persistOk printer device text =
        ([.persistAttempt text, .persisted text], .persistedUnprinted)) ∧
    (∀ name, persistOk = true → printer = some name →
      (printText persistOk printer device text).1 =
        [.persistAttempt text, .persisted text,
         .forwardAttempt name text] ∧
      PrintEvent.persisted text ∈ (printText persistOk printer device text).1 ∧
      (device = .commandNotFound →
        (printText persistOk printer device text).2 = .deviceCommandMissing) ∧
      (∀ msg, device = .rejected msg →
        (printText persistOk printer device text).2 = .deviceRejected)) := by
  cases persistOk <;> cases printer <;> cases device <;>
    simp [printText]

/-- Witness for C7: the write-failure, no-printer, missing-command and
rejection cases at concrete inputs. -/
theorem dispatch_spec_witness :
    printText false none .ok "T" =
      ([.persistAttempt "T"], .persistenceFailure) ∧
    printText true none .ok "T" =
      ([.persistAttempt "T", .persisted "T"], .persistedUnprinted) ∧
    (printText true (some "P") .commandNotFound "T").2 =
      .deviceCommandMissing ∧
    (printText true (some "P") (.rejected "err") "T").2 = .deviceRejected ∧
    PrintEvent.persisted "T" ∈ (printText true (some "P") (.rejected "err") "T").1 :=
  ⟨(dispatch_spec false none .ok "T").2.1 rfl,
   (dispatch_spec true none .ok "T").2.2.1 rfl rfl,
   ((dispatch_spec true (some "P") .commandNotFound "T").2.2.2 "P" rfl
       rfl).2.2.1 rfl,
   ((dispatch_spec true (some "P") (.rejected "err") "T").2.2.2 "P" rfl
       rfl).2.2.2 "err" rfl,
   ((dispatch_spec true (some "P") (.rejected "err") "T").2.2.2 "P" rfl
       rfl).2.1⟩

/-- C8 (amended): both receipt builders are deterministic given their
inputs together with the wall-clock reading the source captures internally
via `datetime.now()` — two invocations at clock readings rendering to the
same `%d/%m/%Y %H:%M` string (e.g. differing only in seconds) produce
identical text. -/
theorem formatter_deterministic_given_clock (t1 t2 : DateTime)
    (header footer : String) (sale : List SaleLine) (taxRate : ℚ)
    (sales : List (List SaleLine × ℚ))
    (h : strftimeDayMinute t1 = strftimeDayMinute t2) :
    printTicketForSale t1 header footer sale taxRate =
      printTicketForSale t2 header footer sale taxRate ∧
    buildCashSummary t1 sales = buildCashSummary t2 sales := by
  unfold printTicketForSale buildCashSummary
  rw [h]
  exact ⟨rfl, rfl⟩

/-- Witness for C8 (amended): two clock readings in the same minute but
different seconds give identical ticket and summary text. -/
theorem formatter_deterministic_given_clock_witness :
    printTicketForSale ⟨2024, 1, 5, 10, 30, 0⟩ "H" "F"
        [⟨sampleProduct, 3, 10, 10⟩] 21 =
      printTicketForSale ⟨2024, 1, 5, 10, 30, 59⟩ "H" "F"
        [⟨sampleProduct, 3, 10, 10⟩] 21 ∧
    buildCashSummary ⟨2024, 1, 5, 10, 30, 0⟩
        [([⟨sampleProduct, 3, 10, 10⟩], 21)] =
      buildCashSummary ⟨2024, 1, 5, 10, 30, 59⟩
        [([⟨sampleProduct, 3, 10, 10⟩], 21)] :=
  formatter_deterministic_given_clock ⟨2024, 1, 5, 10, 30, 0⟩
    ⟨2024, 1, 5, 10, 30, 59⟩ "H" "F" [⟨sampleProduct, 3, 10, 10⟩] 21
    [([⟨sampleProduct, 3, 10, 10⟩], 21)] (by decide)

/-- Counterexample for C8 as stated: the timestamp is not an explicit input
of the source formatter but a wall-clock reading captured inside it
(`datetime.now()` in `_print_ticket_for_sale`), so two invocations with
identical caller-supplied inputs (header, footer, sale, tax rate) at
different clock readings produce different text. -/
theorem formatter_wallclock_counterexample :
    printTicketForSale ⟨2024, 1, 5, 10, 30, 0⟩ "H" "F"
        [⟨sampleProduct, 3, 10, 10⟩] 21 ≠
      printTicketForSale ⟨2024, 1, 6, 10, 30, 0⟩ "H" "F"
        [⟨sampleProduct, 3, 10, 10⟩] 21 := by
  decide

/-- C9 (amended): the cart operations validate the quantity — an
unparseable or non-positive quantity is rejected with a validation error
and the cart is unchanged, and every accepted line has quantity ≥ 1 — but
the discount is only parsed with a fallback default, never range-checked,
so values outside `[0, 100]` are accepted. -/
theorem cartQuantityValidation_spec (s : POSState) :
    (∀ idx pI dI, addProductToSale s (some idx) none pI dI =
      (s, some .validationError)) ∧
    (∀ idx (q : ℤ) pI dI, q ≤ 0 →
      addProductToSale s (some idx) (some q) pI dI =
        (s, some .validationError)) ∧
    (∀ sel qI pI dI, (addProductToSale s sel qI pI dI).2 = none →
      ∃ l, (addProductToSale s sel qI pI dI).1.currentSale =
        s.currentSale ++ [l] ∧ 1 ≤ l.qty) ∧
    (∀ idx line pI dI, s.currentSale[idx]? = some line →
      editSaleLine s idx none pI dI = (s, some .validationError)) ∧
    (∀ idx line (q : ℤ) pI dI, q ≤ 0 → s.currentSale[idx]? = some line →
      editSaleLine s idx (some q) pI dI = (s, some .validationError)) ∧
    (∀ idx qI pI dI, (editSaleLine s idx qI pI dI).2 = none →
      ∃ l, (editSaleLine s idx qI pI dI).1.currentSale =
        s.currentSale.set idx l ∧ 1 ≤ l.qty) := by
  refine ⟨?_, ?_, ?_, ?_, ?_, ?_⟩
  · intro idx pI dI
    simp [addProductToSale]
  · intro idx q pI dI hq
    simp [addProductToSale, hq]
  · intro sel qI pI dI h
    cases sel with
    | none => simp [addProductToSale] at h
    | some idx =>
      cases qI with
      | none => simp [addProductToSale] at h
      | some q =>
        by_cases hq : q ≤ 0
        · simp [addProductToSale, hq] at h
        · cases hp : s.products[idx]? with
          | none => simp [addProductToSale, hq, hp] at h
          | some product =>
            refine ⟨⟨product, q, parseFloatOrDefault pI product.price,
              parseFloatOrDefault dI 0⟩, ?_, show (1 : ℤ) ≤ q by omega⟩
            simp [addProductToSale, hq, hp]
  · intro idx line pI dI hl
    simp [editSaleLine, hl]
  · intro idx line q pI dI hq hl
    simp [editSaleLine, hl, hq]
  · intro idx qI pI dI h
    cases hl : s.currentSale[idx]? with
    | none => simp [editSaleLine, hl] at h
    | some line =>
      cases qI with
      | none => simp [editSaleLine, hl] at h
      | some q =>
        by_cases hq : q ≤ 0
        · simp [editSaleLine, hl, hq] at h
        · refine ⟨⟨line.product, q, parseFloatOrDefault pI line.price,
            parseFloatOrDefault dI line.discount⟩, ?_, show (1 : ℤ) ≤ q by omega⟩
          simp [editSaleLine, hl, hq]

/-- Witness for C9 (amended): rejected unparseable and non-positive
quantities at concrete states. -/
theorem cartQuantityValidation_spec_witness :
    addProductToSale sampleOpenState (some 0) none none none =
      (sampleOpenState, some .validationError) ∧
    addProductToSale sampleOpenState (some 0) (some 0) none none =
      (sampleOpenState, some .validationError) ∧
    editSaleLine sampleOpenState 0 (some (-2)) none none =
      (sampleOpenState, some .validationError) :=
  ⟨(cartQuantityValidation_spec sampleOpenState).1 0 none none,
   (cartQuantityValidation_spec sampleOpenState).2.1 0 0 none none
     (by decide),
   (cartQuantityValidation_spec sampleOpenState).2.2.2.2.1 0
     ⟨sampleProduct, 3, 10, 10⟩ (-2) none none (by decide) (by decide)⟩

/-- Counterexample for C9 as stated: `add_product_to_sale` accepts a parsed
discount of 150, outside `[0, 100]`, into the cart without error. -/
theorem cartDiscountRange_counterexample :
    (addProductToSale sampleClosedState (some 0) (some 1) none
      (some 150)).2 = none ∧
    ((addProductToSale sampleClosedState (some 0) (some 1) none
      (some 150)).1.currentSale.map SaleLine.discount) = [150] ∧
    ¬ ((150 : ℚ) ≤ 100) := by
  decide
